import Mathlib

/-!
Shallow embedding of the validation orchestration and results-aggregation
pipeline of the Digital-Template-to-XBRL-Converter repository.

The repository's own code under verification is the two entry-point scripts
`scripts/api-server.py` and `scripts/validate-json.py`.  Those scripts drive
external collaborators from the `mireport` package (ExcelProcessor,
ArelleReportProcessor, ConversionResultsBuilder); the collaborators' sources
are not part of the repository snapshot under verification, so their
interfaces are modelled from the specification (each such definition says so
in its doc comment).  The orchestration logic itself — the try/except
failure containment, the conditional validation stage, the JSON output
shapes, the HTTP endpoint precondition checks and status codes, the CLI
exit code, and the taxonomy-loading guard — is translated line by line from
the two scripts.
-/

namespace VSME

/-- Modelled from the spec: the diagnostic severity set of
`mireport.conversionresults.Severity` (not under `src/`).  The spec gives a
total order INFO < WARNING < ERROR with a stable string wire value. -/
inductive Severity where
  | INFO
  | WARNING
  | ERROR
deriving DecidableEq, Repr

/-- Modelled from the spec: the stable string representation of a severity,
read as `.value` by both scripts when serializing. -/
def Severity.value : Severity → String
  | .INFO => "INFO"
  | .WARNING => "WARNING"
  | .ERROR => "ERROR"

/-- Rank realizing the total order INFO < WARNING < ERROR. -/
def Severity.rank : Severity → Nat
  | .INFO => 0
  | .WARNING => 1
  | .ERROR => 2

/-- Maximum of two severities under the INFO < WARNING < ERROR order. -/
def Severity.maxSev (a b : Severity) : Severity :=
  if a.rank ≤ b.rank then b else a

/-- Modelled from the spec: `mireport.conversionresults.MessageType`
(not under `src/`).  The spec says it categorizes a diagnostic's origin
(extraction stage, validation stage, or internal exception); both scripts
use `MessageType.Conversion` for the exception-to-diagnostic conversion. -/
inductive MessageType where
  | Conversion
  | ExcelParsing
  | XbrlValidation
deriving DecidableEq, Repr

/-- Modelled from the spec: the stable string representation of a message
type, read as `.value` by both scripts when serializing. -/
def MessageType.value : MessageType → String
  | .Conversion => "Conversion"
  | .ExcelParsing => "ExcelParsing"
  | .XbrlValidation => "XbrlValidation"

/-- Modelled from the spec: one diagnostic, with the attributes the two
scripts read when serializing (`messageText`, `severity`, `messageType`,
`conceptQName`, `excelReference`). -/
structure Message where
  messageText : String
  severity : Severity
  messageType : MessageType
  conceptQName : Option String
  excelReference : Option String
deriving DecidableEq, Repr

/-- JSON-like values, the codomain of the serialized output dictionaries
built by `validate_excel` (api-server.py:73-95) and by the CLI `main`
(validate-json.py:63-82). -/
inductive JValue where
  | null
  | bool (b : Bool)
  | num (n : Int)
  | str (s : String)
  | arr (elems : List JValue)
  | obj (fields : List (String × JValue))

/-- Python truthiness for JSON values, as applied by `not skip_xbrl`
(api-server.py:55,77) to the raw JSON value that `validate_path` passes in
(api-server.py:162). -/
def JValue.truthy : JValue → Bool
  | .null => false
  | .bool b => b
  | .num n => !(n == 0)
  | .str s => !(s == "")
  | .arr elems => !elems.isEmpty
  | .obj fields => !fields.isEmpty

/-- Modelled from the spec: an inline report package
(`report.getInlineReportPackage()`'s payload); its contents are never
inspected by the scripts. -/
structure Package where
  payload : Nat
deriving DecidableEq, Repr

/-- Modelled from the spec: the structured report object returned by
`excel.populateReport()`.  The scripts read `hasFacts` (api-server.py:55,
validate-json.py:48) and call `getInlineReportPackage()` (api-server.py:56,
validate-json.py:49); the latter is an opaque collaborator call inside the
try block, so it is modelled as fallible. -/
structure Report where
  hasFacts : Bool
  getInlineReportPackage : Except String Package

/-- One behavior of the extraction collaborator on one input file: the
diagnostics it appends to the builder (and the cell counters it records)
before returning or failing, and its outcome — `Except.ok` a report, or
`Except.error` the description of the exception it raised
(api-server.py:48-53, validate-json.py:41-46). -/
structure ExtractionBehavior where
  emitted : List Message
  cellsQueried : Nat
  cellsPopulated : Nat
  outcome : Except String Report

/-- Modelled from the spec: the validator collaborator's successful return
value, `{messages: [Diagnostic]}` (api-server.py:61-62). -/
structure ArelleResults where
  messages : List Message

/-- Modelled from the spec: `mireport.conversionresults.ConversionResultsBuilder`
(not under `src/`): the mutable per-run aggregator state.  `xbrlValid` is
the spec's tri-state field, unset until the validation stage completes. -/
structure ConversionResultsBuilder where
  messages : List Message
  xbrlValid : Option Bool
  cellsQueried : Nat
  cellsPopulated : Nat

/-- Modelled from the spec: `addMessage(text, severity, messageType)` —
appends one diagnostic with no concept or location reference; always
succeeds (api-server.py:65-69, validate-json.py:55-59). -/
def ConversionResultsBuilder.addMessage (b : ConversionResultsBuilder)
    (text : String) (severity : Severity) (messageType : MessageType) :
    ConversionResultsBuilder :=
  { b with messages := b.messages ++ [⟨text, severity, messageType, none, none⟩] }

/-- Modelled from the spec: `addMessages(sequence)` appends many diagnostics
preserving order.  The orchestrator calls it exactly once, with the
validation stage's diagnostics, when that stage completes
(api-server.py:62, validate-json.py:52); per the spec's transition 5,
completing the validation stage sets `xbrlValid` to true iff none of the
appended diagnostics carries ERROR severity. -/
def ConversionResultsBuilder.addMessages (b : ConversionResultsBuilder)
    (msgs : List Message) : ConversionResultsBuilder :=
  { b with
    messages := b.messages ++ msgs
    xbrlValid := some (msgs.all (fun m => !(m.severity == Severity.ERROR))) }

/-- Modelled from the spec: the immutable finalized result snapshot
(`ConversionResults`), with the attributes the two scripts read. -/
structure ConversionResults where
  conversionId : Nat
  userMessages : List Message
  isXbrlValid : Option Bool
  cellsQueried : Nat
  cellsPopulated : Nat

/-- Modelled from the spec: `build()` freezes the builder into a
ConversionResults, assigning the fresh run id (api-server.py:71,
validate-json.py:61). -/
def ConversionResultsBuilder.build (b : ConversionResultsBuilder)
    (id : Nat) : ConversionResults :=
  { conversionId := id
    userMessages := b.messages
    isXbrlValid := b.xbrlValid
    cellsQueried := b.cellsQueried
    cellsPopulated := b.cellsPopulated }

/-- Modelled from the spec: `hasErrors()` — some diagnostic carries ERROR
severity. -/
def ConversionResults.hasErrors (r : ConversionResults) : Bool :=
  r.userMessages.any (fun m => m.severity == Severity.ERROR)

/-- Modelled from the spec: `hasWarnings()` — some diagnostic carries
WARNING severity. -/
def ConversionResults.hasWarnings (r : ConversionResults) : Bool :=
  r.userMessages.any (fun m => m.severity == Severity.WARNING)

/-- Modelled from the spec: `conversionSuccessful` — true iff no diagnostic
carries ERROR severity (every stage failure is recovered into an ERROR
diagnostic, so the spec's stage-failure clause is subsumed). -/
def ConversionResults.conversionSuccessful (r : ConversionResults) : Bool :=
  !r.hasErrors

/-- Modelled from the spec: `getOverallSeverity()` — the maximum severity
across all accumulated diagnostics, or the defined none sentinel
(here `Option.none`) when there are zero diagnostics. -/
def ConversionResults.getOverallSeverity (r : ConversionResults) :
    Option Severity :=
  r.userMessages.foldl
    (fun acc m =>
      match acc with
      | none => some m.severity
      | some s => some (s.maxSev m.severity))
    none

/-- Modelled from the spec: wire value of the overall severity, with the
none sentinel serialized as the string NONE. -/
def overallSeverityValue : Option Severity → String
  | none => "NONE"
  | some s => s.value

/-- Shared orchestration pipeline: the try block of api-server.py:47-69 and,
identically, validate-json.py:40-59, returning the builder state just before
`build()` is called.  The extractor's emissions (diagnostics and cell
counters) land in the builder first; then, depending on the extraction
outcome, the skip flag, `hasFacts`, and each collaborator call's outcome,
either the validator's diagnostics are appended via `addMessages`, or the
single caught exception is converted into one ERROR/Conversion diagnostic,
or nothing more is appended. -/
def runBuilder (ext : ExtractionBehavior)
    (validateReportPackage : Package → Except String ArelleResults)
    (skip_xbrl : Bool) : ConversionResultsBuilder :=
  let b : ConversionResultsBuilder :=
    { messages := ext.emitted
      xbrlValid := none
      cellsQueried := ext.cellsQueried
      cellsPopulated := ext.cellsPopulated }
  match ext.outcome with
  | .error e => b.addMessage ("Exception: " ++ e) .ERROR .Conversion
  | .ok report =>
    if !skip_xbrl && report.hasFacts then
      match report.getInlineReportPackage with
      | .error e => b.addMessage ("Exception: " ++ e) .ERROR .Conversion
      | .ok pkg =>
        match validateReportPackage pkg with
        | .error e => b.addMessage ("Exception: " ++ e) .ERROR .Conversion
        | .ok arelle_results => b.addMessages arelle_results.messages
    else b

/-- Whether the control flow of the try block reaches the call
`arp.validateReportPackage(report_package)` (api-server.py:61,
validate-json.py:51): extraction must return a report, the caller must not
have requested skipping, `hasFacts` must be true, and the preceding call
`report.getInlineReportPackage()` must itself return rather than raise. -/
def validatorInvoked (ext : ExtractionBehavior) (skip_xbrl : Bool) : Bool :=
  match ext.outcome with
  | .error _ => false
  | .ok report =>
    if !skip_xbrl && report.hasFacts then
      match report.getInlineReportPackage with
      | .error _ => false
      | .ok _ => true
    else false

/-- The description of the exception caught by the except clause
(api-server.py:64, validate-json.py:54), if any collaborator call in the
try block fails on this run; `none` when the try block completes. -/
def stageFailure (ext : ExtractionBehavior)
    (validateReportPackage : Package → Except String ArelleResults)
    (skip_xbrl : Bool) : Option String :=
  match ext.outcome with
  | .error e => some e
  | .ok report =>
    if !skip_xbrl && report.hasFacts then
      match report.getInlineReportPackage with
      | .error e => some e
      | .ok pkg =>
        match validateReportPackage pkg with
        | .error e => some e
        | .ok _ => none
    else none

/-- Whether the validation stage ran to completion on this run: the
validator was invoked and returned normally, so its diagnostics were
appended via `addMessages`. -/
def validationCompleted (ext : ExtractionBehavior)
    (validateReportPackage : Package → Except String ArelleResults)
    (skip_xbrl : Bool) : Bool :=
  match ext.outcome with
  | .error _ => false
  | .ok report =>
    if !skip_xbrl && report.hasFacts then
      match report.getInlineReportPackage with
      | .error _ => false
      | .ok pkg =>
        match validateReportPackage pkg with
        | .error _ => false
        | .ok _ => true
    else false

/-- Serialization of an Option String field (`concept`, `excel_ref`). -/
def optStrJ : Option String → JValue
  | none => .null
  | some s => .str s

/-- Serialization of the tri-state `xbrl_valid` field. -/
def optBoolJ : Option Bool → JValue
  | none => .null
  | some b => .bool b

/-- One entry of the `messages` array (api-server.py:86-92,
validate-json.py:73-79). -/
def messageJson (m : Message) : JValue :=
  .obj
    [("text", .str m.messageText),
     ("severity", .str m.severity.value),
     ("type", .str m.messageType.value),
     ("concept", optStrJ m.conceptQName),
     ("excel_ref", optStrJ m.excelReference)]

/-- Count of messages with the given severity (api-server.py:83-84). -/
def ConversionResults.severityCount (r : ConversionResults)
    (s : Severity) : Nat :=
  r.userMessages.countP (fun m => m.severity == s)

/-- The result dictionary returned by `validate_excel`
(api-server.py:73-95), as an ordered key/value list. -/
def apiOutput (r : ConversionResults) (filename : String)
    (skip_xbrl : Bool) : List (String × JValue) :=
  [("id", .num r.conversionId),
   ("filename", .str filename),
   ("success", .bool r.conversionSuccessful),
   ("xbrl_valid", if !skip_xbrl then optBoolJ r.isXbrlValid else .null),
   ("overall_severity", .str (overallSeverityValue r.getOverallSeverity)),
   ("cells_queried", .num r.cellsQueried),
   ("cells_populated", .num r.cellsPopulated),
   ("has_errors", .bool r.hasErrors),
   ("has_warnings", .bool r.hasWarnings),
   ("error_count", .num (r.severityCount .ERROR)),
   ("warning_count", .num (r.severityCount .WARNING)),
   ("messages", .arr (r.userMessages.map messageJson))]

/-- The output dictionary printed by the CLI entry point
(validate-json.py:63-82), as an ordered key/value list. -/
def cliOutput (r : ConversionResults) (skip_xbrl_validation : Bool) :
    List (String × JValue) :=
  [("id", .num r.conversionId),
   ("success", .bool r.conversionSuccessful),
   ("xbrl_valid",
     if !skip_xbrl_validation then optBoolJ r.isXbrlValid else .null),
   ("overall_severity", .str (overallSeverityValue r.getOverallSeverity)),
   ("cells_queried", .num r.cellsQueried),
   ("cells_populated", .num r.cellsPopulated),
   ("has_errors", .bool r.hasErrors),
   ("has_warnings", .bool r.hasWarnings),
   ("messages", .arr (r.userMessages.map messageJson))]

/-- The whole of `validate_excel` (api-server.py:43-95): run the pipeline,
build the results, serialize.  The fresh id assigned at build time is an
explicit parameter. -/
def validate_excel (ext : ExtractionBehavior)
    (validateReportPackage : Package → Except String ArelleResults)
    (filename : String) (skip_xbrl : Bool) (id : Nat) :
    List (String × JValue) :=
  apiOutput ((runBuilder ext validateReportPackage skip_xbrl).build id)
    filename skip_xbrl

/-- The CLI run (validate-json.py:33-89) after argument parsing: the printed
output dictionary and the process exit code, which is 0 iff
`results.conversionSuccessful and not results.hasErrors()`
(validate-json.py:89). -/
def cliRun (ext : ExtractionBehavior)
    (validateReportPackage : Package → Except String ArelleResults)
    (skip_xbrl_validation : Bool) (id : Nat) :
    List (String × JValue) × Nat :=
  let results := (runBuilder ext validateReportPackage
    skip_xbrl_validation).build id
  (cliOutput results skip_xbrl_validation,
   if results.conversionSuccessful && !results.hasErrors then 0 else 1)

/-- Python `str.lower()` restricted to ASCII case mapping, as applied to
filenames and form fields (api-server.py:124,127,159). -/
def strLower (s : String) : String :=
  ⟨s.data.map Char.toLower⟩

/-- Python `str.endswith(t)` (api-server.py:124). -/
def strEndsWith (s t : String) : Bool :=
  List.isSuffixOf t.data s.data

/-- Parsing of the multipart `skip_xbrl` form field by the `/validate`
endpoint: `request.form.get("skip_xbrl", "false").lower() == "true"`
(api-server.py:127). -/
def formSkip (field : Option String) : Bool :=
  strLower (field.getD "false") == "true"

/-- Parsing of the JSON `skip_xbrl` value by the `/validate/path` endpoint:
`data.get("skip_xbrl", False)` (api-server.py:162), subsequently consumed
under Python truthiness by `not skip_xbrl` (api-server.py:55,77). -/
def pathSkip (value : Option JValue) : Bool :=
  JValue.truthy (value.getD (.bool false))

/-- A multipart request to POST `/validate`: presence of the `file` part
(with its filename) and the raw `skip_xbrl` form field. -/
structure UploadRequest where
  file : Option String
  skip_xbrl_field : Option String

/-- A JSON request to POST `/validate/path` together with the file-system
facts the handler queries about the supplied path: `path` is `none` when
the body is missing/falsy or has no `path` key; `pathExists` is the answer
of `file_path.exists()`; `suffixLower` is `file_path.suffix.lower()`
(path parsing and the file system live outside the repository). -/
structure PathRequest where
  path : Option String
  pathExists : Bool
  suffixLower : String
  skip_xbrl_value : Option JValue

/-- What an endpoint handler returns: the HTTP status code, whether the
validation pipeline (`validate_excel`) was invoked, and the JSON body. -/
structure EndpointResult where
  status : Nat
  invoked : Bool
  body : List (String × JValue)

/-- The POST `/validate` handler (api-server.py:104-135): three transport
precondition checks, each answering 400 without invoking the pipeline, then
the pipeline, with status 200 when `result["success"]` is true and 422
otherwise. -/
def validate (req : UploadRequest) (ext : ExtractionBehavior)
    (validateReportPackage : Package → Except String ArelleResults)
    (id : Nat) : EndpointResult :=
  match req.file with
  | none => ⟨400, false, [("error", .str "No file provided")]⟩
  | some filename =>
    if filename == "" then
      ⟨400, false, [("error", .str "No file selected")]⟩
    else if !strEndsWith (strLower filename) ".xlsx" then
      ⟨400, false, [("error", .str "Only .xlsx files are supported")]⟩
    else
      let skip_xbrl := formSkip req.skip_xbrl_field
      let results := (runBuilder ext validateReportPackage skip_xbrl).build id
      ⟨if results.conversionSuccessful then 200 else 422, true,
       apiOutput results filename skip_xbrl⟩

/-- The POST `/validate/path` handler (api-server.py:138-167): missing body
or `path` key answers 400; a nonexistent path answers 404; a suffix other
than `.xlsx` answers 400; otherwise the pipeline runs, with status 200 when
`result["success"]` is true and 422 otherwise. -/
def validate_path (req : PathRequest) (ext : ExtractionBehavior)
    (validateReportPackage : Package → Except String ArelleResults)
    (id : Nat) : EndpointResult :=
  match req.path with
  | none => ⟨400, false, [("error", .str "No path provided")]⟩
  | some p =>
    if !req.pathExists then
      ⟨404, false, [("error", .str ("File not found: " ++ p))]⟩
    else if !(req.suffixLower == ".xlsx") then
      ⟨400, false, [("error", .str "Only .xlsx files are supported")]⟩
    else
      let skip_xbrl := pathSkip req.skip_xbrl_value
      let results := (runBuilder ext validateReportPackage skip_xbrl).build id
      ⟨if results.conversionSuccessful then 200 else 422, true,
       apiOutput results p skip_xbrl⟩

/-- Whether the transport preconditions of POST `/validate` all pass
(api-server.py:117-125). -/
def uploadPrecondOk (req : UploadRequest) : Bool :=
  match req.file with
  | none => false
  | some filename =>
    !(filename == "") && strEndsWith (strLower filename) ".xlsx"

/-- Whether the transport preconditions of POST `/validate/path` all pass
(api-server.py:151-160). -/
def pathPrecondOk (req : PathRequest) : Bool :=
  match req.path with
  | none => false
  | some _ => req.pathExists && (req.suffixLower == ".xlsx")

/-- Program counter of one caller of `_ensure_taxonomy_loaded`
(api-server.py:25-31), decomposed into its atomic steps: read the
`_taxonomy_loaded` flag and branch; execute `mireport.loadTaxonomyJSON()`;
write the flag. -/
inductive GuardPc where
  | check
  | load
  | setFlag
  | done
deriving DecidableEq, Repr

/-- Shared state of two callers of the guard: the module-global
`_taxonomy_loaded` flag, the number of times `loadTaxonomyJSON` has been
executed, and each caller's program counter. -/
structure GuardState where
  loaded : Bool
  loadCount : Nat
  pc0 : GuardPc
  pc1 : GuardPc
deriving DecidableEq, Repr

/-- One atomic step of one caller of the guard; `t` selects the caller. -/
def guardStepThread (loaded : Bool) (loadCount : Nat) (pc : GuardPc) :
    Bool × Nat × GuardPc :=
  match pc with
  | .check => (loaded, loadCount, if loaded then .done else .load)
  | .load => (loaded, loadCount + 1, .setFlag)
  | .setFlag => (true, loadCount, .done)
  | .done => (loaded, loadCount, .done)

/-- One interleaving step of the two-caller system. -/
def guardStep (s : GuardState) (t : Bool) : GuardState :=
  if t then
    let (l, c, pc) := guardStepThread s.loaded s.loadCount s.pc1
    { s with loaded := l, loadCount := c, pc1 := pc }
  else
    let (l, c, pc) := guardStepThread s.loaded s.loadCount s.pc0
    { s with loaded := l, loadCount := c, pc0 := pc }

/-- Run a schedule (a list of caller choices) from a state. -/
def guardRun (sched : List Bool) (s : GuardState) : GuardState :=
  sched.foldl guardStep s

/-- The process state at module import, before any caller runs:
`_taxonomy_loaded = False` (api-server.py:22), no load executed yet, both
callers at the initial check. -/
def guardStart : GuardState :=
  { loaded := false, loadCount := 0, pc0 := .check, pc1 := .check }

/-- A run whose extraction stage raises with description `boom`. -/
def failExt : ExtractionBehavior :=
  { emitted := [], cellsQueried := 0, cellsPopulated := 0,
    outcome := .error "boom" }

/-- A validator collaborator that always succeeds with no diagnostics. -/
def anyValidator : Package → Except String ArelleResults :=
  fun _ => .ok ⟨[]⟩

/-- A report whose packaging call raises. -/
def cexReport : Report :=
  { hasFacts := true, getInlineReportPackage := .error "broken package" }

/-- An extraction behavior that succeeds with `cexReport`. -/
def cexExt : ExtractionBehavior :=
  { emitted := [], cellsQueried := 0, cellsPopulated := 0,
    outcome := .ok cexReport }

/-- A report with facts whose packaging call succeeds. -/
def okReport : Report :=
  { hasFacts := true, getInlineReportPackage := .ok ⟨0⟩ }

/-- An extraction behavior that succeeds with `okReport`. -/
def okExt : ExtractionBehavior :=
  { emitted := [], cellsQueried := 3, cellsPopulated := 2,
    outcome := .ok okReport }

/-- A report that extracted successfully but produced no facts. -/
def noFactsExt : ExtractionBehavior :=
  { emitted := [], cellsQueried := 5, cellsPopulated := 0,
    outcome := .ok { hasFacts := false, getInlineReportPackage := .ok ⟨0⟩ } }

/-- An empty finalized result, for concrete output-shape computations. -/
def emptyResults : ConversionResults :=
  { conversionId := 0, userMessages := [], isXbrlValid := none,
    cellsQueried := 0, cellsPopulated := 0 }

/-- If the validation stage did not run to completion, `addMessages` was
never called, so the builder's tri-state `xbrlValid` is still unset. -/
lemma runBuilder_xbrlValid_of_not_completed (ext : ExtractionBehavior)
    (v : Package → Except String ArelleResults) (skip_xbrl : Bool)
    (h : validationCompleted ext v skip_xbrl = false) :
    (runBuilder ext v skip_xbrl).xbrlValid = none := by
  unfold validationCompleted at h
  unfold runBuilder
  cases hx : ext.outcome with
  | error e =>
    simp [ConversionResultsBuilder.addMessage]
  | ok report =>
    rw [hx] at h
    dsimp only at h ⊢
    by_cases hc : (!skip_xbrl && report.hasFacts) = true
    · rw [if_pos hc] at h
      rw [if_pos hc]
      cases hp : report.getInlineReportPackage with
      | error e =>
        simp [ConversionResultsBuilder.addMessage]
      | ok pkg =>
        rw [hp] at h
        dsimp only at h ⊢
        cases hv : v pkg with
        | error e =>
          simp [ConversionResultsBuilder.addMessage]
        | ok arelle_results =>
          rw [hv] at h
          exact absurd h (by simp)
    · rw [if_neg hc]

/-- C1: for every input file and every behavior of the extractor and
validator collaborators, including any failure they raise, the failure
never propagates past `validate_excel`: it is converted into exactly one
ERROR-severity diagnostic of type Conversion whose text is derived from the
failure's description, the aggregator is still built, and a well-formed
result is returned. -/
theorem orchestrator_contains_stage_failures (ext : ExtractionBehavior)
    (v : Package → Except String ArelleResults) (filename : String)
    (skip_xbrl : Bool) (id : Nat) (e : String)
    (h : stageFailure ext v skip_xbrl = some e) :
    (runBuilder ext v skip_xbrl).messages
      = ext.emitted
        ++ [⟨"Exception: " ++ e, Severity.ERROR, MessageType.Conversion,
             none, none⟩]
    ∧ validate_excel ext v filename skip_xbrl id
      = apiOutput ((runBuilder ext v skip_xbrl).build id) filename
          skip_xbrl := by
  refine ⟨?_, rfl⟩
  unfold stageFailure at h
  unfold runBuilder
  cases hx : ext.outcome with
  | error e2 =>
    rw [hx] at h
    simp only [Option.some.injEq] at h
    subst h
    simp [ConversionResultsBuilder.addMessage]
  | ok report =>
    rw [hx] at h
    dsimp only at h ⊢
    by_cases hc : (!skip_xbrl && report.hasFacts) = true
    · rw [if_pos hc] at h
      rw [if_pos hc]
      cases hp : report.getInlineReportPackage with
      | error e2 =>
        rw [hp] at h
        dsimp only at h
        simp only [Option.some.injEq] at h
        subst h
        simp [ConversionResultsBuilder.addMessage]
      | ok pkg =>
        rw [hp] at h
        dsimp only at h ⊢
        cases hv : v pkg with
        | error e2 =>
          rw [hv] at h
          dsimp only at h
          simp only [Option.some.injEq] at h
          subst h
          simp [ConversionResultsBuilder.addMessage]
        | ok arelle_results =>
          rw [hv] at h
          exact absurd h (by simp)
    · rw [if_neg hc] at h
      exact absurd h (by simp)

/-- Witness for C1 at a concrete failing extraction. -/
theorem orchestrator_contains_stage_failures_witness :
    stageFailure failExt anyValidator false = some "boom"
    ∧ (runBuilder failExt anyValidator false).messages
      = [⟨"Exception: boom", Severity.ERROR, MessageType.Conversion,
          none, none⟩] := by
  refine ⟨rfl, ?_⟩
  have h := (orchestrator_contains_stage_failures failExt anyValidator
    "report.xlsx" false 0 "boom" rfl).1
  simpa [failExt] using h

/-- C2: whenever the validation stage does not execute to completion
(skipping requested, no facts, extraction failed, or a failure partway
through the validation stage), the `xbrl_valid` field of the emitted result
is JSON null — in particular it is not false after a validation-stage
failure. -/
theorem xbrl_valid_null_when_validation_not_executed
    (ext : ExtractionBehavior)
    (v : Package → Except String ArelleResults) (filename : String)
    (skip_xbrl : Bool) (id : Nat)
    (h : validationCompleted ext v skip_xbrl = false) :
    List.lookup "xbrl_valid" (validate_excel ext v filename skip_xbrl id)
      = some JValue.null := by
  have hl : List.lookup "xbrl_valid"
      (validate_excel ext v filename skip_xbrl id)
      = some (if !skip_xbrl then
          optBoolJ ((runBuilder ext v skip_xbrl).build id).isXbrlValid
        else JValue.null) := rfl
  rw [hl]
  cases skip_xbrl with
  | true => rfl
  | false =>
    have hnone := runBuilder_xbrlValid_of_not_completed ext v false h
    simp [ConversionResultsBuilder.build, hnone, optBoolJ]

/-- Witness for C2 at the concrete no-facts run. -/
theorem xbrl_valid_null_when_validation_not_executed_witness :
    validationCompleted noFactsExt anyValidator false = false
    ∧ List.lookup "xbrl_valid"
        (validate_excel noFactsExt anyValidator "report.xlsx" false 7)
      = some JValue.null :=
  ⟨rfl, xbrl_valid_null_when_validation_not_executed noFactsExt anyValidator
    "report.xlsx" false 7 rfl⟩

/-- C3 counterexample: with skipping not requested and a report whose
`hasFacts` is true but whose packaging call `getInlineReportPackage()`
raises, `validateReportPackage` is never reached, so "invoked iff not
skipping and hasFacts" is false at this input. -/
theorem validator_invoked_iff_counterexample :
    ¬(validatorInvoked cexExt false = true
      ↔ ((false : Bool) = false ∧ cexReport.hasFacts = true)) := by
  decide

/-- C3 amended: the validator collaborator is invoked only if the caller
did not request skipping and the extracted report's `hasFacts` is true (so
if either condition is false it is never called, and a run that does not
reach the validator is independent of the validator collaborator); the
converse direction additionally requires the packaging call to succeed. -/
theorem validator_invoked_only_if (ext : ExtractionBehavior)
    (skip_xbrl : Bool) :
    (validatorInvoked ext skip_xbrl = true →
      skip_xbrl = false
      ∧ ∃ report, ext.outcome = Except.ok report ∧ report.hasFacts = true)
    ∧ (validatorInvoked ext skip_xbrl = false →
      ∀ v₁ v₂ : Package → Except String ArelleResults,
        runBuilder ext v₁ skip_xbrl = runBuilder ext v₂ skip_xbrl) := by
  constructor
  · intro h
    unfold validatorInvoked at h
    cases hx : ext.outcome with
    | error e =>
      rw [hx] at h
      exact absurd h (by simp)
    | ok report =>
      rw [hx] at h
      dsimp only at h
      by_cases hc : (!skip_xbrl && report.hasFacts) = true
      · cases skip_xbrl with
        | true => exact absurd hc (by simp)
        | false =>
          refine ⟨rfl, report, rfl, ?_⟩
          simpa using hc
      · rw [if_neg hc] at h
        exact absurd h (by simp)
  · intro h v₁ v₂
    unfold validatorInvoked at h
    unfold runBuilder
    cases hx : ext.outcome with
    | error e => rfl
    | ok report =>
      rw [hx] at h
      dsimp only at h ⊢
      by_cases hc : (!skip_xbrl && report.hasFacts) = true
      · rw [if_pos hc] at h
        rw [if_pos hc, if_pos hc]
        cases hp : report.getInlineReportPackage with
        | error e => rfl
        | ok pkg =>
          rw [hp] at h
          exact absurd h (by simp)
      · rw [if_neg hc]
        rw [if_neg hc]

/-- Witness for C3 amended at a concrete run that does reach the
validator. -/
theorem validator_invoked_only_if_witness :
    validatorInvoked okExt false = true
    ∧ ((false : Bool) = false
      ∧ ∃ report, okExt.outcome = Except.ok report
        ∧ report.hasFacts = true)
    ∧ runBuilder cexExt anyValidator false
      = runBuilder cexExt (fun _ => .error "other") false :=
  ⟨rfl, (validator_invoked_only_if okExt false).1 rfl,
   (validator_invoked_only_if cexExt false).2 rfl anyValidator
     (fun _ => .error "other")⟩

/-- C5: the CLI process exit code is 0 iff the built result's success flag
is true and the result contains no ERROR-severity diagnostic; otherwise 1
(validate-json.py:89). -/
theorem cli_exit_code_iff (ext : ExtractionBehavior)
    (v : Package → Except String ArelleResults)
    (skip_xbrl_validation : Bool) (id : Nat) :
    (cliRun ext v skip_xbrl_validation id).2 = 0
      ↔ (((runBuilder ext v skip_xbrl_validation).build
            id).conversionSuccessful = true
        ∧ ∀ m ∈ ((runBuilder ext v skip_xbrl_validation).build
            id).userMessages, m.severity ≠ Severity.ERROR) := by
  have key : ∀ r : ConversionResults,
      ((if (r.conversionSuccessful && !r.hasErrors) = true then (0 : Nat)
          else 1) = 0
        ↔ (r.conversionSuccessful = true
          ∧ ∀ m ∈ r.userMessages, m.severity ≠ Severity.ERROR)) := by
    intro r
    cases he : r.hasErrors with
    | true =>
      have hs : r.conversionSuccessful = false := by
        unfold ConversionResults.conversionSuccessful
        rw [he]
        rfl
      rw [hs]
      simp
    | false =>
      have hs : r.conversionSuccessful = true := by
        unfold ConversionResults.conversionSuccessful
        rw [he]
        rfl
      have hm : ∀ m ∈ r.userMessages, m.severity ≠ Severity.ERROR := by
        have hany := he
        unfold ConversionResults.hasErrors at hany
        rw [List.any_eq_false] at hany
        intro m hmem
        simpa using hany m hmem
      rw [hs]
      simp
      exact hm
  exact key ((runBuilder ext v skip_xbrl_validation).build id)

/-- C6 counterexample: the network response carries an `error_count` field
(and a `warning_count` field) that the CLI output does not, so the two
outputs do not have the same field set minus `filename`. -/
theorem cli_api_same_fields_counterexample :
    "error_count" ∈ (apiOutput emptyResults "report.xlsx" false).map
      Prod.fst
    ∧ "error_count" ∉ (cliOutput emptyResults false).map Prod.fst
    ∧ ("error_count" : String) ≠ "filename" := by
  decide

/-- C6 amended: the CLI output has exactly the fields of the network
response except `filename`, `error_count` and `warning_count`, and every
field the CLI emits appears in the network response with an equal value
when both are built from the same finalized results and skip flag. -/
theorem cli_api_field_correspondence (r : ConversionResults)
    (filename : String) (skip_xbrl : Bool) :
    (apiOutput r filename skip_xbrl).map Prod.fst
      = ["id", "filename", "success", "xbrl_valid", "overall_severity",
         "cells_queried", "cells_populated", "has_errors", "has_warnings",
         "error_count", "warning_count", "messages"]
    ∧ (cliOutput r skip_xbrl).map Prod.fst
      = ["id", "success", "xbrl_valid", "overall_severity",
         "cells_queried", "cells_populated", "has_errors", "has_warnings",
         "messages"]
    ∧ ∀ kv ∈ cliOutput r skip_xbrl, kv ∈ apiOutput r filename skip_xbrl := by
  refine ⟨rfl, rfl, ?_⟩
  intro kv hkv
  simp only [cliOutput, List.mem_cons, List.not_mem_nil, or_false] at hkv
  rcases hkv with h|h|h|h|h|h|h|h|h <;> subst h <;> simp [apiOutput]

/-- Witness for C6 amended: the CLI `success` field appears with an equal
value in the network response for a concrete result. -/
theorem cli_api_field_correspondence_witness :
    ("success", JValue.bool true) ∈ cliOutput emptyResults false
    ∧ ("success", JValue.bool true)
      ∈ apiOutput emptyResults "report.xlsx" false := by
  have hmem : ("success", JValue.bool true) ∈ cliOutput emptyResults false := by
    simp [cliOutput, emptyResults, ConversionResults.conversionSuccessful,
      ConversionResults.hasErrors]
  exact ⟨hmem, (cli_api_field_correspondence emptyResults "report.xlsx"
    false).2.2 _ hmem⟩

/-- C7: two runs on the same input with the same deterministic collaborator
behaviors and skip flag yield identical `messages` and `overall_severity`
fields, whatever distinct run ids are assigned at build time. -/
theorem run_determinism (ext : ExtractionBehavior)
    (v : Package → Except String ArelleResults) (filename : String)
    (skip_xbrl : Bool) (id₁ id₂ : Nat) :
    List.lookup "messages" (validate_excel ext v filename skip_xbrl id₁)
      = List.lookup "messages" (validate_excel ext v filename skip_xbrl id₂)
    ∧ List.lookup "overall_severity"
        (validate_excel ext v filename skip_xbrl id₁)
      = List.lookup "overall_severity"
          (validate_excel ext v filename skip_xbrl id₂) :=
  ⟨rfl, rfl⟩

/-- C9: the two endpoints parse `skip_xbrl` differently — the multipart
endpoint compares the lowercased form field against the string true
(absent meaning false), while the JSON endpoint applies Python truthiness
to the raw JSON value (absent meaning false), so the JSON string false
enables skipping. -/
theorem skip_flag_parsing_divergence :
    (∀ s, formSkip (some s) = (strLower s == "true"))
    ∧ formSkip none = false
    ∧ (∀ v, pathSkip (some v) = JValue.truthy v)
    ∧ pathSkip none = false
    ∧ formSkip (some "false") = false
    ∧ pathSkip (some (JValue.str "false")) = true :=
  ⟨fun _ => rfl, rfl, fun _ => rfl, rfl, by decide, rfl⟩

/-- C4: on both endpoints a transport precondition failure yields a 4xx
status (400, or 404 for a missing path) without invoking the validation
pipeline, and when preconditions pass the pipeline is invoked and the
status is 200 when the result's success field is true and 422 otherwise. -/
theorem endpoint_status_mapping (ureq : UploadRequest) (preq : PathRequest)
    (ext : ExtractionBehavior)
    (v : Package → Except String ArelleResults) (id : Nat) :
    (uploadPrecondOk ureq = false →
      (validate ureq ext v id).invoked = false
      ∧ (validate ureq ext v id).status = 400)
    ∧ (uploadPrecondOk ureq = true →
      (validate ureq ext v id).invoked = true
      ∧ (validate ureq ext v id).status
        = if ((runBuilder ext v (formSkip ureq.skip_xbrl_field)).build
            id).conversionSuccessful then 200 else 422)
    ∧ (pathPrecondOk preq = false →
      (validate_path preq ext v id).invoked = false
      ∧ ((validate_path preq ext v id).status = 400
        ∨ (validate_path preq ext v id).status = 404))
    ∧ (pathPrecondOk preq = true →
      (validate_path preq ext v id).invoked = true
      ∧ (validate_path preq ext v id).status
        = if ((runBuilder ext v (pathSkip preq.skip_xbrl_value)).build
            id).conversionSuccessful then 200 else 422) := by
  refine ⟨?_, ?_, ?_, ?_⟩
  · intro h
    unfold uploadPrecondOk at h
    unfold validate
    cases hf : ureq.file with
    | none => exact ⟨rfl, rfl⟩
    | some filename =>
      rw [hf] at h
      dsimp only at h ⊢
      cases h1 : (filename == "") with
      | true => simp [h1]
      | false =>
        rw [h1] at h
        simp only [Bool.not_false, Bool.true_and] at h
        simp [h1, h]
  · intro h
    unfold uploadPrecondOk at h
    unfold validate
    cases hf : ureq.file with
    | none =>
      rw [hf] at h
      exact absurd h (by simp)
    | some filename =>
      rw [hf] at h
      dsimp only at h ⊢
      rw [Bool.and_eq_true] at h
      rcases h with ⟨h1, h2⟩
      have h1f : (filename == "") = false := by
        cases hfb : (filename == "") with
        | true => rw [hfb] at h1; exact absurd h1 (by simp)
        | false => rfl
      simp [h1f, h2]
  · intro h
    unfold pathPrecondOk at h
    unfold validate_path
    cases hp : preq.path with
    | none => exact ⟨rfl, Or.inl rfl⟩
    | some p =>
      rw [hp] at h
      dsimp only at h ⊢
      cases he : preq.pathExists with
      | false => simp [he]
      | true =>
        rw [he] at h
        simp only [Bool.true_and] at h
        simp [he, h]
  · intro h
    unfold pathPrecondOk at h
    unfold validate_path
    cases hp : preq.path with
    | none =>
      rw [hp] at h
      exact absurd h (by simp)
    | some p =>
      rw [hp] at h
      dsimp only at h ⊢
      rw [Bool.and_eq_true] at h
      rcases h with ⟨h1, h2⟩
      simp [h1, h2]

/-- Witness for C4 at a concrete rejected upload (wrong extension), a
concrete accepted upload, and a concrete missing path. -/
theorem endpoint_status_mapping_witness :
    ((validate ⟨some "report.csv", none⟩ failExt anyValidator 0).invoked
        = false
      ∧ (validate ⟨some "report.csv", none⟩ failExt anyValidator 0).status
        = 400)
    ∧ ((validate ⟨some "report.xlsx", none⟩ failExt anyValidator 0).invoked
        = true
      ∧ (validate ⟨some "report.xlsx", none⟩ failExt anyValidator 0).status
        = if ((runBuilder failExt anyValidator
            (formSkip none)).build 0).conversionSuccessful then 200
          else 422)
    ∧ ((validate_path ⟨some "a.csv", false, ".csv", none⟩ failExt
          anyValidator 0).invoked = false
      ∧ ((validate_path ⟨some "a.csv", false, ".csv", none⟩ failExt
            anyValidator 0).status = 400
        ∨ (validate_path ⟨some "a.csv", false, ".csv", none⟩ failExt
            anyValidator 0).status = 404)) :=
  ⟨(endpoint_status_mapping ⟨some "report.csv", none⟩
      ⟨some "a.csv", false, ".csv", none⟩ failExt anyValidator 0).1
    (by decide),
   (endpoint_status_mapping ⟨some "report.xlsx", none⟩
      ⟨some "a.csv", false, ".csv", none⟩ failExt anyValidator 0).2.1
    (by decide),
   (endpoint_status_mapping ⟨some "report.csv", none⟩
      ⟨some "a.csv", false, ".csv", none⟩ failExt anyValidator 0).2.2.1
    (by decide)⟩

/-- C10: on `/validate/path` the existence check runs before the extension
check — a provided but nonexistent path always yields 404, whatever its
extension, and a 400 answer for a provided path implies the path exists. -/
theorem path_endpoint_check_order (preq : PathRequest)
    (ext : ExtractionBehavior)
    (v : Package → Except String ArelleResults) (id : Nat) :
    (preq.path ≠ none → preq.pathExists = false →
      (validate_path preq ext v id).status = 404)
    ∧ (preq.path ≠ none → (validate_path preq ext v id).status = 400 →
      preq.pathExists = true) := by
  constructor
  · intro hsome he
    unfold validate_path
    cases hp : preq.path with
    | none => exact absurd hp hsome
    | some p =>
      dsimp only
      simp [he]
  · intro hsome hstatus
    cases he : preq.pathExists with
    | true => rfl
    | false =>
      exfalso
      unfold validate_path at hstatus
      cases hp : preq.path with
      | none => exact absurd hp hsome
      | some p =>
        rw [hp] at hstatus
        dsimp only at hstatus
        rw [he] at hstatus
        simp at hstatus

/-- Witness for C10 at a concrete nonexistent path with a non-xlsx
extension. -/
theorem path_endpoint_check_order_witness :
    (validate_path ⟨some "data/report.csv", false, ".csv", none⟩ failExt
      anyValidator 0).status = 404 :=
  (path_endpoint_check_order ⟨some "data/report.csv", false, ".csv", none⟩
    failExt anyValidator 0).1 (by decide) rfl

/-- C8 counterexample: an interleaving in which both first callers pass the
`if not _taxonomy_loaded` check before either executes the load runs
`loadTaxonomyJSON` twice, with both callers completing — so the
unsynchronized check-then-set guard does not ensure at-most-one
initialization under concurrent first callers. -/
theorem taxonomy_guard_concurrent_counterexample :
    (guardRun [false, true, false, false, true, true] guardStart).loadCount
      = 2
    ∧ (guardRun [false, true, false, false, true, true] guardStart).pc0
      = GuardPc.done
    ∧ (guardRun [false, true, false, false, true, true] guardStart).pc1
      = GuardPc.done := by
  decide

/-- Program counters that hold no pending execution of the load. -/
def idlePc (pc : GuardPc) : Bool :=
  pc == GuardPc.check || pc == GuardPc.done

/-- Number of loads a caller at this program counter may still execute. -/
def pendingLoad : GuardPc → Nat
  | .check => 1
  | .load => 1
  | .setFlag => 0
  | .done => 0

/-- Executed loads plus loads still possible, bounded along every step. -/
def guardMeasure (s : GuardState) : Nat :=
  s.loadCount + pendingLoad s.pc0 + pendingLoad s.pc1

/-- Each interleaving step of the guard never increases the measure. -/
lemma guardStep_measure_le (s : GuardState) (t : Bool) :
    guardMeasure (guardStep s t) ≤ guardMeasure s := by
  rcases s with ⟨l, c, p0, p1⟩
  cases t <;> cases l <;> cases p0 <;> cases p1 <;>
    simp [guardStep, guardStepThread, guardMeasure, pendingLoad]

/-- Along every schedule the measure never increases. -/
lemma guardRun_measure_le (sched : List Bool) (s : GuardState) :
    guardMeasure (guardRun sched s) ≤ guardMeasure s := by
  induction sched generalizing s with
  | nil => exact Nat.le_refl _
  | cons t rest ih =>
    exact Nat.le_trans (ih (guardStep s t)) (guardStep_measure_le s t)

/-- Once the flag is set and both callers are idle, a step keeps the flag
set, keeps both callers idle, and executes no load. -/
lemma guardStep_idle (s : GuardState) (t : Bool) (hl : s.loaded = true)
    (h0 : idlePc s.pc0 = true) (h1 : idlePc s.pc1 = true) :
    (guardStep s t).loaded = true
    ∧ idlePc (guardStep s t).pc0 = true
    ∧ idlePc (guardStep s t).pc1 = true
    ∧ (guardStep s t).loadCount = s.loadCount := by
  rcases s with ⟨l, c, p0, p1⟩
  cases t <;> cases l <;> cases p0 <;> cases p1 <;>
    simp_all [guardStep, guardStepThread, idlePc]

/-- Once the flag is set and both callers are idle, no schedule executes
any further load. -/
lemma guardRun_idle (sched : List Bool) (s : GuardState)
    (hl : s.loaded = true) (h0 : idlePc s.pc0 = true)
    (h1 : idlePc s.pc1 = true) :
    (guardRun sched s).loadCount = s.loadCount := by
  induction sched generalizing s with
  | nil => rfl
  | cons t rest ih =>
    rcases guardStep_idle s t hl h0 h1 with ⟨hl2, h02, h12, hc2⟩
    exact (ih (guardStep s t) hl2 h02 h12).trans hc2

/-- C8 amended: the guard is an unsynchronized check-then-set — it does
prevent re-initialization once a completed initialization has set the flag
and each caller executes the load at most once (so at most two executions
for two callers, and a fully sequential pair of callers in either order
executes it exactly once), but concurrent first callers are not limited to
a single execution of `loadTaxonomyJSON`. -/
theorem taxonomy_guard_check_then_set :
    (∀ sched, (guardRun sched guardStart).loadCount ≤ 2)
    ∧ (∀ sched (s : GuardState), s.loaded = true → idlePc s.pc0 = true →
        idlePc s.pc1 = true →
        (guardRun sched s).loadCount = s.loadCount)
    ∧ (guardRun [false, false, false, true] guardStart).loadCount = 1
    ∧ (guardRun [true, true, true, false] guardStart).loadCount = 1 := by
  refine ⟨?_, ?_, by decide, by decide⟩
  · intro sched
    have h := guardRun_measure_le sched guardStart
    have h2 : (guardRun sched guardStart).loadCount
        ≤ guardMeasure (guardRun sched guardStart) := by
      unfold guardMeasure
      omega
    exact Nat.le_trans h2 h
  · intro sched s hl h0 h1
    exact guardRun_idle sched s hl h0 h1

/-- Witness for C8 amended: a later caller pair starting after a completed
initialization executes no further load. -/
theorem taxonomy_guard_check_then_set_witness :
    (guardRun [false, true]
      ⟨true, 1, GuardPc.check, GuardPc.check⟩).loadCount = 1 :=
  taxonomy_guard_check_then_set.2.1 [false, true]
    ⟨true, 1, GuardPc.check, GuardPc.check⟩ rfl rfl rfl

end VSME
